import Mathlib

/-!
Verification of the Quine-DevQuine repository (src/api.py and src/app.py).

The Generation Client (src/api.py) is modelled with the external OpenAI
completion endpoint abstracted as a function from a completion request to
either a response text (`Except.ok`, the `response.choices[0].text` field) or
a raised exception's message (`Except.error`, covering network, auth, quota
and malformed-response failures, all of which surface in Python as an
exception caught by the `except Exception` handler).

Python string primitives used by the source (`str.strip`, `str.split(",")`,
`", ".join`) are modelled by structurally recursive functions over the
character list of a string, so they evaluate inside the kernel.
-/

/-- Model of Python `str.strip()` on a character list: drop whitespace from
both ends. -/
def pyStripList (l : List Char) : List Char :=
  ((l.dropWhile Char.isWhitespace).reverse.dropWhile Char.isWhitespace).reverse

/-- Model of Python `str.strip()`. -/
def pyStrip (s : String) : String :=
  String.mk (pyStripList s.data)

/-- Helper for `pySplitComma`: accumulates the current chunk (reversed) and
cuts at every comma, exactly like Python `str.split(",")`. -/
def pySplitCommaAux : List Char → List Char → List (List Char)
  | [], acc => [acc.reverse]
  | c :: cs, acc =>
      if c = ',' then acc.reverse :: pySplitCommaAux cs []
      else pySplitCommaAux cs (c :: acc)

/-- Model of Python `tags.split(",")`: splits at every comma and keeps empty
chunks, so the empty string yields `[""]`. -/
def pySplitComma (s : String) : List String :=
  (pySplitCommaAux s.data []).map String.mk

/-- A request sent to the completion endpoint: the keyword arguments of
`openai.Completion.create` in src/api.py. -/
structure CompletionRequest where
  engine : String
  prompt : String
  max_tokens : Nat
  temperature : Rat
deriving DecidableEq

/-- The external completion service, a black box from a request to either the
response text or a raised exception's message. -/
def CompletionService : Type :=
  CompletionRequest → Except String String

/-- src/api.py line 22: `", ".join([tag.strip() for tag in tags.split(",")])`. -/
def tag_string (tags : String) : String :=
  String.intercalate ", " ((pySplitComma tags).map pyStrip)

/-- src/api.py line 25: the outline prompt. -/
def outline_prompt (title notes tags : String) : String :=
  "Title: " ++ title ++ "\nTags: " ++ tag_string tags ++ "\nNotes: " ++ notes
    ++ "\n\nCreate a detailed outline for an article based on the above information:"

/-- src/api.py lines 28-33: the request issued by `generate_article_outline`. -/
def outline_request (title notes tags : String) (temperature : Rat) : CompletionRequest :=
  ⟨"text-davinci-003", outline_prompt title notes tags, 200, temperature⟩

/-- src/api.py lines 7-39: `generate_article_outline`.  On success returns the
response text stripped (`response.choices[0].text.strip()`); any exception is
caught and its message returned (`return str(e)`). -/
def generate_article_outline (service : CompletionService)
    (title notes tags : String) (temperature : Rat) : String :=
  match service (outline_request title notes tags temperature) with
  | Except.ok text => pyStrip text
  | Except.error e => e

/-- src/api.py lines 55-57: the article prompt. -/
def article_prompt (outline : String) : String :=
  "Write a detailed article based on the following outline:\n" ++ outline ++ "\n"

/-- src/api.py lines 60-65: the request issued by
`generate_full_article_from_outline`. -/
def article_request (outline : String) (temperature : Rat) : CompletionRequest :=
  ⟨"text-davinci-003", article_prompt outline, 800, temperature⟩

/-- src/api.py lines 42-71: `generate_full_article_from_outline`. -/
def generate_full_article_from_outline (service : CompletionService)
    (outline : String) (temperature : Rat) : String :=
  match service (article_request outline temperature) with
  | Except.ok text => pyStrip text
  | Except.error e => e

/-- src/app.py lines 276-293: the worker thread body `call_openai_api`, which
chains the outline call into the article call (both at the default
temperature 0.7) and delivers the article text. -/
def call_openai_api (service : CompletionService)
    (title tags notes : String) : String :=
  let outline := generate_article_outline service title notes tags (7 / 10)
  generate_full_article_from_outline service outline (7 / 10)

/-- The string `needle` occurs verbatim (contiguously, unescaped and
untruncated) inside `hay`. -/
def embeds (needle hay : String) : Prop :=
  ∃ pre post : List Char, pre ++ needle.data ++ post = hay.data

/-!
Model of the Interactive Shell (src/app.py, class ArticleGenerator).

The mutable widget/timer state of the class is an `AppState`.  The display
widget `generated_text_area` is its text content; a QTimer is its
started/stopped flag; `pending` counts the worker threads spawned by
`generate_article` that have not yet delivered their result (the toolkit only
ever runs one queued signal handler at a time on the UI thread, so deliveries
are discrete events).
-/

/-- The mutable state of the `ArticleGenerator` widget (src/app.py). -/
structure AppState where
  generated_text_area : String
  full_generated_text : String
  current_typing_position : Nat
  ellipsis_count : Nat
  ellipsis_timer_active : Bool
  typing_timer_active : Bool
  pending : Nat
deriving DecidableEq

/-- src/app.py lines 43-61 (`__init__`): empty text, counters at zero, both
timers stopped, no worker thread running. -/
def initState : AppState :=
  ⟨"", "", 0, 0, false, false, 0⟩

/-- src/app.py lines 258-274: the `Generate Article` click handler.  It starts
the ellipsis timer and spawns one worker thread; nothing else is touched. -/
def generate_article (s : AppState) : AppState :=
  { s with ellipsis_timer_active := true, pending := s.pending + 1 }

/-- src/app.py lines 297-314: handler of the `articleGenerated` signal.  Stops
the ellipsis timer, clears the display, stores the delivered text, resets the
typing position and starts the typing timer. -/
def update_gui_with_generated_article (s : AppState) (text : String) : AppState :=
  { s with
      ellipsis_timer_active := false,
      generated_text_area := "",
      full_generated_text := text,
      current_typing_position := 0,
      typing_timer_active := true }

/-- src/app.py lines 316-331: one tick of the typing timer.  While the
position is below the text length it appends the character at the position and
advances the position; otherwise it stops the typing timer. -/
def type_next_character (s : AppState) : AppState :=
  if s.current_typing_position < s.full_generated_text.data.length then
    { s with
        generated_text_area :=
          s.generated_text_area.push
            (s.full_generated_text.data.getD s.current_typing_position ' '),
        current_typing_position := s.current_typing_position + 1 }
  else
    { s with typing_timer_active := false }

/-- src/app.py lines 333-344: one tick of the ellipsis timer.  Advances the
dot counter modulo 4 and rewrites the display caption. -/
def update_ellipsis (s : AppState) : AppState :=
  { s with
      ellipsis_count := (s.ellipsis_count + 1) % 4,
      generated_text_area :=
        "Generating article"
          ++ String.mk (List.replicate ((s.ellipsis_count + 1) % 4) '.') }

/-- The external triggers that drive the widget: a button click, the delivery
of a worker thread's result on the UI thread, and the two timer ticks. -/
inductive UIEvent
  | click
  | taskComplete (result : String)
  | ellipsisTick
  | typingTick
deriving DecidableEq

/-- One step of the event system.  A timer tick can only fire while its timer
is started, and a result can only be delivered while a worker is running;
otherwise the event is impossible (`none`). -/
def step (s : AppState) : UIEvent → Option AppState
  | UIEvent.click => some (generate_article s)
  | UIEvent.taskComplete r =>
      if 0 < s.pending then
        some (update_gui_with_generated_article { s with pending := s.pending - 1 } r)
      else none
  | UIEvent.ellipsisTick =>
      if s.ellipsis_timer_active then some (update_ellipsis s) else none
  | UIEvent.typingTick =>
      if s.typing_timer_active then some (type_next_character s) else none

/-- Run a sequence of external triggers from a state; `none` if some trigger
is impossible along the way. -/
def run (s : AppState) : List UIEvent → Option AppState
  | [] => some s
  | e :: es =>
      match step s e with
      | some s2 => run s2 es
      | none => none

/-- The three phases of the spec's AnimationState. -/
inductive Phase
  | Idle
  | Loading
  | Typing
deriving DecidableEq

/-- The phase the widget state is in: Typing while the typing timer runs,
Loading while only the ellipsis timer runs, Idle when neither does. -/
def phase (s : AppState) : Phase :=
  if s.typing_timer_active then Phase.Typing
  else if s.ellipsis_timer_active then Phase.Loading
  else Phase.Idle

/-- The transition discipline claimed by the spec for AnimationState. -/
def allowedNext : Phase → Phase → Prop
  | Phase.Idle, Phase.Loading => True
  | Phase.Loading, Phase.Typing => True
  | Phase.Typing, Phase.Idle => True
  | _, _ => False

/-- States of the single-submission regime: at most one worker in flight, a
worker only in flight during Loading, and never both timers running. -/
def animInv (s : AppState) : Prop :=
  s.pending ≤ 1
    ∧ (0 < s.pending → phase s = Phase.Loading)
    ∧ ¬(s.ellipsis_timer_active = true ∧ s.typing_timer_active = true)

/-- A completion service that answers every request with the same text. -/
def okService (text : String) : CompletionService :=
  fun _ => Except.ok text

/-- A completion service that fails every request with the same message. -/
def errService (msg : String) : CompletionService :=
  fun _ => Except.error msg

/-- A completion service that fails outline requests (recognised by their
`max_tokens` budget of 200) and answers article requests with a fixed text. -/
def outlineFailService : CompletionService :=
  fun req =>
    if req.max_tokens = 200 then Except.error "quota exceeded"
    else Except.ok " The article "


/-- Claim C1: both Generation Client operations are total Lean functions of
the service outcome; on a successful service response they return the
response text stripped, and on any service failure they return the failure
message itself as an ordinary string result. -/
theorem c1_generation_client_collapses_failures (service : CompletionService)
    (title notes tags outline : String) (temperature : Rat) :
    (∀ text, service (outline_request title notes tags temperature) = Except.ok text →
      generate_article_outline service title notes tags temperature = pyStrip text)
    ∧ (∀ e, service (outline_request title notes tags temperature) = Except.error e →
      generate_article_outline service title notes tags temperature = e)
    ∧ (∀ text, service (article_request outline temperature) = Except.ok text →
      generate_full_article_from_outline service outline temperature = pyStrip text)
    ∧ (∀ e, service (article_request outline temperature) = Except.error e →
      generate_full_article_from_outline service outline temperature = e) := by
  refine ⟨?_, ?_, ?_, ?_⟩ <;> intro t h <;>
    simp [generate_article_outline, generate_full_article_from_outline, h]

/-- Claim C1, witness: a concrete succeeding service and a concrete failing
service, evaluated on both operations. -/
theorem c1_generation_client_collapses_failures_witness :
    generate_article_outline (okService " hello ") "t" "n" "a,b" 1 = "hello"
    ∧ generate_full_article_from_outline (errService "boom") "o" 1 = "boom" := by
  constructor
  · have h :=
      (c1_generation_client_collapses_failures (okService " hello ") "t" "n" "a,b" "o" 1).1
        " hello " rfl
    rw [h]; decide
  · exact
      (c1_generation_client_collapses_failures (errService "boom") "t" "n" "a,b" "o" 1).2.2.2
        "boom" rfl

/-- Claim C2: the tag segment (comma-split, each part stripped, joined with
", ") is embedded verbatim in the outline prompt for every tags string, and
the input "a, b ,c" yields the segment "a, b, c". -/
theorem c2_tag_segment_built_and_embedded (title notes tags : String) :
    embeds (tag_string tags) (outline_prompt title notes tags)
    ∧ tag_string "a, b ,c" = "a, b, c" := by
  constructor
  · refine ⟨("Title: " ++ title ++ "\nTags: ").data,
      ("\nNotes: " ++ notes
        ++ "\n\nCreate a detailed outline for an article based on the above information:").data,
      ?_⟩
    simp [outline_prompt, String.data_append]
  · decide

/-- Claim C3: the outline request carries max_tokens 200 and the article
request max_tokens 800, and each prompt embeds its inputs (title, joined tag
segment, notes, outline) verbatim. -/
theorem c3_token_budgets_and_verbatim_prompts
    (title notes tags outline : String) (temperature : Rat) :
    (outline_request title notes tags temperature).max_tokens = 200
    ∧ (article_request outline temperature).max_tokens = 800
    ∧ embeds title (outline_request title notes tags temperature).prompt
    ∧ embeds (tag_string tags) (outline_request title notes tags temperature).prompt
    ∧ embeds notes (outline_request title notes tags temperature).prompt
    ∧ embeds outline (article_request outline temperature).prompt := by
  refine ⟨rfl, rfl, ?_, ?_, ?_, ?_⟩
  · refine ⟨("Title: ").data,
      ("\nTags: " ++ tag_string tags ++ "\nNotes: " ++ notes
        ++ "\n\nCreate a detailed outline for an article based on the above information:").data,
      ?_⟩
    simp [outline_request, outline_prompt, String.data_append]
  · refine ⟨("Title: " ++ title ++ "\nTags: ").data,
      ("\nNotes: " ++ notes
        ++ "\n\nCreate a detailed outline for an article based on the above information:").data,
      ?_⟩
    simp [outline_request, outline_prompt, String.data_append]
  · refine ⟨("Title: " ++ title ++ "\nTags: " ++ tag_string tags ++ "\nNotes: ").data,
      ("\n\nCreate a detailed outline for an article based on the above information:").data,
      ?_⟩
    simp [outline_request, outline_prompt, String.data_append]
  · refine ⟨("Write a detailed article based on the following outline:\n").data,
      ("\n").data, ?_⟩
    simp [article_request, article_prompt, String.data_append]

/-- Claim C4: for the concrete end-to-end inputs the outline prompt contains
"Tags: nature, water, policy" verbatim; and for every submission the worker
feeds the outline text returned by `generate_article_outline` into the
article call, whose prompt places it right after the literal phrase
"Write a detailed article based on the following outline:" and its newline. -/
theorem c4_end_to_end_prompts (service : CompletionService)
    (title notes tags : String) :
    embeds "Tags: nature, water, policy"
      (outline_prompt "Ocean Conservation" "focus on plastic pollution" "nature, water, policy")
    ∧ call_openai_api service title tags notes
        = generate_full_article_from_outline service
            (generate_article_outline service title notes tags (7 / 10)) (7 / 10)
    ∧ article_prompt (generate_article_outline service title notes tags (7 / 10))
        = "Write a detailed article based on the following outline:\n"
          ++ generate_article_outline service title notes tags (7 / 10) ++ "\n" := by
  refine ⟨⟨("Title: Ocean Conservation\n").data,
    ("\nNotes: focus on plastic pollution\n\nCreate a detailed outline for an article based on the above information:").data,
    by decide⟩, rfl, rfl⟩

/-- Claim C5: when the service fails the outline request with message `e`,
`generate_article_outline` returns `e`, the Interactive Shell's worker passes
`e` on as the outline, and the article call is still attempted: the article
request embeds `e` in its prompt and the worker's result is whatever the
service answers to that request. -/
theorem c5_error_cascade (service : CompletionService)
    (title tags notes e : String)
    (h : service (outline_request title notes tags (7 / 10)) = Except.error e) :
    generate_article_outline service title notes tags (7 / 10) = e
    ∧ embeds e (article_request e (7 / 10)).prompt
    ∧ call_openai_api service title tags notes
        = match service (article_request e (7 / 10)) with
          | Except.ok text => pyStrip text
          | Except.error e2 => e2 := by
  have houtline : generate_article_outline service title notes tags (7 / 10) = e := by
    simp [generate_article_outline, h]
  refine ⟨houtline, ?_, ?_⟩
  · exact ⟨("Write a detailed article based on the following outline:\n").data,
      ("\n").data, by simp [article_request, article_prompt, String.data_append]⟩
  · simp [call_openai_api, houtline, generate_full_article_from_outline]

/-- Claim C5, witness: a service that rejects outline requests with
"quota exceeded" but answers article requests; the error string cascades into
the article call and the article text still comes back. -/
theorem c5_error_cascade_witness :
    generate_article_outline outlineFailService "t" "n" "a" (7 / 10) = "quota exceeded"
    ∧ call_openai_api outlineFailService "t" "a" "n" = "The article" := by
  have h := c5_error_cascade outlineFailService "t" "a" "n" "quota exceeded" rfl
  refine ⟨h.1, ?_⟩
  rw [h.2.2]; decide

/-- Claim C9: delivering any result text to the UI thread stops the loading
timer, clears the display, stores the text as the text to type, resets the
typing position to 0 and starts the typing timer, whatever the prior state. -/
theorem c9_delivery_resets_typing (s : AppState) (text : String) :
    (update_gui_with_generated_article s text).ellipsis_timer_active = false
    ∧ (update_gui_with_generated_article s text).generated_text_area = ""
    ∧ (update_gui_with_generated_article s text).full_generated_text = text
    ∧ (update_gui_with_generated_article s text).current_typing_position = 0
    ∧ (update_gui_with_generated_article s text).typing_timer_active = true :=
  ⟨rfl, rfl, rfl, rfl, rfl⟩

/-- Claim C10: the empty tags string splits into one empty tag, which strips
to the empty segment; the outline prompt for entirely empty inputs is the
bare skeleton, and `generate_article_outline` still consults the completion
service on it (no validation, no error). -/
theorem c10_empty_inputs_accepted (service : CompletionService) (temperature : Rat) :
    pySplitComma "" = [""]
    ∧ pyStrip "" = ""
    ∧ tag_string "" = ""
    ∧ outline_prompt "" "" ""
        = "Title: \nTags: \nNotes: \n\nCreate a detailed outline for an article based on the above information:"
    ∧ (∀ text, service (outline_request "" "" "" temperature) = Except.ok text →
        generate_article_outline service "" "" "" temperature = pyStrip text) := by
  refine ⟨by decide, by decide, by decide, by decide, ?_⟩
  intro text h
  simp [generate_article_outline, h]

/-- Claim C10, witness: a concrete service answering the empty-input outline
request. -/
theorem c10_empty_inputs_accepted_witness :
    generate_article_outline (okService "outline") "" "" "" (7 / 10) = "outline" := by
  have h := (c10_empty_inputs_accepted (okService "outline") (7 / 10)).2.2.2.2 "outline" rfl
  rw [h]; decide

/-- Claim C6: while the typing position is below the text length, a typing
tick appends exactly the character at the position to the display and
advances the position by exactly 1 (touching neither timer flag nor the
text); once the position equals the length, the tick stops the typing timer,
appends nothing, and a stopped typing timer can tick no further. -/
theorem c6_typing_reveal_monotonic (s : AppState) :
    (s.current_typing_position < s.full_generated_text.data.length →
      (type_next_character s).generated_text_area
          = s.generated_text_area.push
              (s.full_generated_text.data.getD s.current_typing_position ' ')
        ∧ (type_next_character s).current_typing_position = s.current_typing_position + 1
        ∧ (type_next_character s).typing_timer_active = s.typing_timer_active
        ∧ (type_next_character s).full_generated_text = s.full_generated_text)
    ∧ (s.current_typing_position = s.full_generated_text.data.length →
      (type_next_character s).typing_timer_active = false
        ∧ (type_next_character s).generated_text_area = s.generated_text_area
        ∧ (type_next_character s).current_typing_position = s.current_typing_position
        ∧ step (type_next_character s) UIEvent.typingTick = none) := by
  constructor
  · intro h
    unfold type_next_character
    rw [if_pos h]
    exact ⟨rfl, rfl, rfl, rfl⟩
  · intro h
    have hnot : ¬ s.current_typing_position < s.full_generated_text.data.length := by omega
    unfold type_next_character
    rw [if_neg hnot]
    exact ⟨rfl, rfl, rfl, rfl⟩

/-- Claim C6, witness: one mid-text tick advances the position, one end-text
tick stops the timer. -/
theorem c6_typing_reveal_monotonic_witness :
    (type_next_character (AppState.mk "" "ab" 0 0 false true 0)).current_typing_position = 1
    ∧ (type_next_character (AppState.mk "ab" "ab" 2 0 false true 0)).typing_timer_active
        = false := by
  constructor
  · exact ((c6_typing_reveal_monotonic ⟨"", "ab", 0, 0, false, true, 0⟩).1 (by decide)).2.1
  · exact ((c6_typing_reveal_monotonic ⟨"ab", "ab", 2, 0, false, true, 0⟩).2 (by decide)).1

/-- Claim C8: an ellipsis tick advances the dot count to (count+1) mod 4,
renders "Generating article" followed by that many periods, and two
consecutive renders are never identical. -/
theorem c8_ellipsis_dots_cycle (s : AppState) :
    (update_ellipsis s).ellipsis_count = (s.ellipsis_count + 1) % 4
    ∧ (update_ellipsis s).generated_text_area
        = "Generating article"
          ++ String.mk (List.replicate ((s.ellipsis_count + 1) % 4) '.')
    ∧ (update_ellipsis (update_ellipsis s)).generated_text_area
        ≠ (update_ellipsis s).generated_text_area := by
  refine ⟨rfl, rfl, ?_⟩
  intro hEq
  have hlen := congrArg String.length hEq
  simp [update_ellipsis, String.length_append, String.length_mk,
    List.length_replicate] at hlen
  omega

/-- Claim C7 counterexample: with two overlapping submissions, the second
worker's late delivery moves the machine from Idle directly to Typing,
skipping the Loading phase. -/
theorem c7_phase_skip_counterexample :
    (run initState [UIEvent.click, UIEvent.click, UIEvent.taskComplete "x",
        UIEvent.typingTick, UIEvent.typingTick]).map phase = some Phase.Idle
    ∧ (run initState [UIEvent.click, UIEvent.click, UIEvent.taskComplete "x",
        UIEvent.typingTick, UIEvent.typingTick, UIEvent.taskComplete "y"]).map phase
        = some Phase.Typing := by decide

/-- Characterisation of the Idle phase by the two timer flags. -/
theorem phase_eq_idle_iff (s : AppState) :
    phase s = Phase.Idle
      ↔ s.typing_timer_active = false ∧ s.ellipsis_timer_active = false := by
  unfold phase
  cases htyp : s.typing_timer_active <;> cases hell : s.ellipsis_timer_active <;> simp

/-- Characterisation of the Loading phase by the two timer flags. -/
theorem phase_eq_loading_iff (s : AppState) :
    phase s = Phase.Loading
      ↔ s.typing_timer_active = false ∧ s.ellipsis_timer_active = true := by
  unfold phase
  cases htyp : s.typing_timer_active <;> cases hell : s.ellipsis_timer_active <;> simp

/-- Characterisation of the Typing phase by the typing timer flag. -/
theorem phase_eq_typing_iff (s : AppState) :
    phase s = Phase.Typing ↔ s.typing_timer_active = true := by
  unfold phase
  cases htyp : s.typing_timer_active <;> cases hell : s.ellipsis_timer_active <;> simp

/-- Claim C7, amended: in the single-submission regime (at most one worker in
flight, submissions only while Idle, captured by `animInv`), every external
trigger either leaves the phase unchanged or advances it along Idle to
Loading to Typing to Idle, and the regime is preserved.  The unrestricted
claim fails: overlapping submissions let a late delivery jump Idle directly
to Typing, see the counterexample. -/
theorem c7_single_submission_no_phase_skip (s s2 : AppState) (e : UIEvent)
    (hInv : animInv s) (hClick : e = UIEvent.click → phase s = Phase.Idle)
    (hStep : step s e = some s2) :
    (phase s2 = phase s ∨ allowedNext (phase s) (phase s2)) ∧ animInv s2 := by
  obtain ⟨hPend, hLoad, hBoth⟩ := hInv
  cases e with
  | click =>
      have hIdle : phase s = Phase.Idle := hClick rfl
      obtain ⟨htyp, hell⟩ := (phase_eq_idle_iff s).mp hIdle
      have hp0 : s.pending = 0 := by
        by_contra hb
        have hl := hLoad (Nat.pos_of_ne_zero hb)
        rw [hIdle] at hl
        exact Phase.noConfusion hl
      simp only [step] at hStep
      injection hStep with h2
      subst h2
      have hphase : phase (generate_article s) = Phase.Loading := by
        unfold phase generate_article
        simp [htyp]
      constructor
      · right
        rw [hIdle, hphase]
        trivial
      · refine ⟨?_, fun _ => hphase, ?_⟩
        · show s.pending + 1 ≤ 1
          omega
        · show ¬((true : Bool) = true ∧ s.typing_timer_active = true)
          simp [htyp]
  | taskComplete r =>
      simp only [step] at hStep
      split_ifs at hStep with hp
      · injection hStep with h2
        subst h2
        have hLoadS : phase s = Phase.Loading := hLoad hp
        have hphase :
            phase (update_gui_with_generated_article
              { s with pending := s.pending - 1 } r) = Phase.Typing := rfl
        constructor
        · right
          rw [hLoadS, hphase]
          trivial
        · refine ⟨?_, ?_, ?_⟩
          · show s.pending - 1 ≤ 1
            omega
          · intro hq
            exact absurd (show (0 : Nat) < s.pending - 1 from hq) (by omega)
          · show ¬((false : Bool) = true ∧ (true : Bool) = true)
            simp
  | ellipsisTick =>
      simp only [step] at hStep
      split_ifs at hStep with hell
      · injection hStep with h2
        subst h2
        have hphase : phase (update_ellipsis s) = phase s := rfl
        refine ⟨Or.inl hphase, hPend, ?_, hBoth⟩
        intro hq
        rw [hphase]
        exact hLoad hq
  | typingTick =>
      simp only [step] at hStep
      split_ifs at hStep with htyp
      · injection hStep with h2
        subst h2
        have hTypS : phase s = Phase.Typing := (phase_eq_typing_iff s).mpr htyp
        have hell : s.ellipsis_timer_active = false := by
          cases hb : s.ellipsis_timer_active
          · rfl
          · exact absurd ⟨hb, htyp⟩ hBoth
        have hp0 : s.pending = 0 := by
          by_contra hb
          have hl := hLoad (Nat.pos_of_ne_zero hb)
          rw [hTypS] at hl
          exact Phase.noConfusion hl
        by_cases hpos :
            s.current_typing_position < s.full_generated_text.data.length
        · have hs2 : type_next_character s =
              { s with
                  generated_text_area :=
                    s.generated_text_area.push
                      (s.full_generated_text.data.getD s.current_typing_position ' '),
                  current_typing_position := s.current_typing_position + 1 } := by
            unfold type_next_character
            rw [if_pos hpos]
          rw [hs2]
          refine ⟨Or.inl rfl, hPend, ?_, hBoth⟩
          intro hq
          exact absurd (show (0 : Nat) < s.pending from hq) (by omega)
        · have hs2 : type_next_character s =
              { s with typing_timer_active := false } := by
            unfold type_next_character
            rw [if_neg hpos]
          rw [hs2]
          have hphase :
              phase { s with typing_timer_active := false } = Phase.Idle := by
            unfold phase
            simp [hell]
          constructor
          · right
            rw [hTypS, hphase]
            trivial
          · refine ⟨hPend, ?_, ?_⟩
            · intro hq
              exact absurd (show (0 : Nat) < s.pending from hq) (by omega)
            · show ¬(s.ellipsis_timer_active = true ∧ (false : Bool) = true)
              simp

/-- Claim C7, witness: from the initial state, a click moves Idle to Loading
and keeps the single-submission regime. -/
theorem c7_single_submission_no_phase_skip_witness :
    (phase (generate_article initState) = phase initState
      ∨ allowedNext (phase initState) (phase (generate_article initState)))
    ∧ animInv (generate_article initState) :=
  c7_single_submission_no_phase_skip initState (generate_article initState)
    UIEvent.click ⟨by decide, fun h => absurd h (by decide), by decide⟩
    (fun _ => by decide) rfl
